import Mathlib

/-!
Verification development for the wiki image scraper (`scrape_image.py`).

The script is a three-stage pipeline: `get_wiki_page_id` (topic search),
`get_wiki_image_url` (primary-image location on the article page followed by
final URL extraction from the image description page) and `main` (CLI glue).
HTML documents fetched over the network are modelled as explicit node trees;
the HTTP transport is modelled as a function argument supplying the fetched
page.  Python exceptions that the script can raise (it installs no handler
anywhere) are modelled with an explicit error type, and every partial Python
operation (`None.find`, `None[...]`, `list[0]`, `tag["attr"]`) is translated
to its exact failure mode.
-/

/-- Exceptions the Python script can raise.  The script has no try/except, so
each of these aborts the run when it occurs. -/
inductive PyErr where
  /-- `IndexError`: indexing `[0]` into an empty list. -/
  | indexError : PyErr
  /-- `KeyError`: `tag[key]` when the element has no attribute `key`. -/
  | keyError (key : String) : PyErr
  /-- `AttributeError`: calling a method (such as `.find`) on `None`. -/
  | attributeError : PyErr
  /-- `TypeError`: subscripting `None` (`None["href"]`, `None["src"]`). -/
  | typeError : PyErr
deriving DecidableEq, Repr

/-! ### String primitives

All string predicates are defined structurally over `String.data` so that
they evaluate by kernel reduction on concrete inputs.  Case folding models
Python `str.lower` on the ASCII range. -/

/-- Lowercase a string characterwise (ASCII case folding). -/
def pyLower (s : String) : String :=
  String.mk (s.data.map Char.toLower)

/-- Whether `suf` is a suffix of `s`. -/
def strEndsWith (s suf : String) : Bool :=
  suf.data.isSuffixOf s.data

/-- Whether `pat` occurs as a contiguous sublist of `l`. -/
def listHasSub (pat : List Char) : List Char → Bool
  | [] => pat.isEmpty
  | c :: t => pat.isPrefixOf (c :: t) || listHasSub pat t

/-- Whether `pat` occurs as a substring of `s`.  This models Python
`re.search(pat, s)` for a pattern with no metacharacters, such as the
`"http"` check on line 85 of the script. -/
def strContains (s pat : String) : Bool :=
  listHasSub pat.data s.data

/-- Whether `s` contains a newline character. -/
def hasNewline (s : String) : Bool :=
  s.data.contains '\n'

/-- Remove a single trailing newline, if present.  Python's `$` anchor
matches at the end of the string or just before a newline that ends the
string, so a search for `pat$` succeeds exactly on strings whose
single-trailing-newline-stripped form ends with `pat`. -/
def stripTrailingNewline (s : String) : String :=
  if strEndsWith s "\n" then String.mk s.data.dropLast else s

/-- Model of `re.search("(jpg|jpeg|gif|png)$", s)` (line 99 of the script,
applied on line 105): the string, with a single trailing newline stripped,
ends with one of the four alternatives. -/
def reSearchExtDollar (s : String) : Bool :=
  let t := stripTrailingNewline s
  strEndsWith t "jpg" || strEndsWith t "jpeg" || strEndsWith t "gif" ||
    strEndsWith t "png"

/-- Model of `re.search("^((?!svg).)*$", s)` (line 102 of the script,
applied on line 104): `^` anchors at position 0, `.` consumes any
non-newline character whose next three characters are not `svg`, and `$`
accepts at the end of the string or just before a single trailing newline.
The search therefore succeeds exactly when the string, with a single
trailing newline stripped, contains no newline and no occurrence of
`svg`. -/
def reSearchNotSvg (s : String) : Bool :=
  let t := stripTrailingNewline s
  !(hasNewline t) && !(strContains t "svg")

/-! ### HTML documents

A fetched page is a tree of element and text nodes.  A whole document is
represented by a root node (BeautifulSoup's soup object) whose children are
the top-level elements; `find`/`find_all` on any node search its strict
descendants in document (pre-)order, which matches BeautifulSoup's
behaviour with `recursive=True` (the default used throughout the script). -/

mutual
/-- An HTML node: an element with a tag name, attributes and children, or a
text node. -/
inductive Node where
  | elem (tagName : String) (attrs : List (String × String)) (children : NodeList) : Node
  | text (s : String) : Node

/-- A list of sibling nodes (mutual with `Node` so that all traversals are
structurally recursive). -/
inductive NodeList where
  | nil : NodeList
  | cons (hd : Node) (tl : NodeList) : NodeList
end

/-- Build a `NodeList` from a `List Node`. -/
def toNodeList : List Node → NodeList
  | [] => .nil
  | n :: t => .cons n (toNodeList t)

/-- First binding of attribute `key` in an attribute list. -/
def lookupAttr : List (String × String) → String → Option String
  | [], _ => none
  | (k, v) :: t, key => if k == key then some v else lookupAttr t key

/-- Attribute access on a node; `none` models the `KeyError` case of
`tag[key]`. -/
def nodeAttr (n : Node) (key : String) : Option String :=
  match n with
  | .elem _ as _ => lookupAttr as key
  | .text _ => none

/-- Split a class attribute value into whitespace-separated tokens
(BeautifulSoup treats `class` as a multi-valued attribute). -/
def classTokens : List Char → List Char → List String
  | [], acc => if acc.isEmpty then [] else [String.mk acc.reverse]
  | c :: t, acc =>
    if c.isWhitespace then
      if acc.isEmpty then classTokens t [] else String.mk acc.reverse :: classTokens t []
    else classTokens t (c :: acc)

/-- Whether an attribute list carries class token `cls`, modelling
BeautifulSoup's `{"class": cls}` filter. -/
def hasClassToken (as : List (String × String)) (cls : String) : Bool :=
  match lookupAttr as "class" with
  | none => false
  | some v => (classTokens v.data []).contains cls

/-- Whether a node matches a tag-name filter plus an optional class filter,
as used by `find(name)` and `find(name, {"class": cls})`. -/
def nodeFilter (nm : String) (cls : Option String) : Node → Bool
  | .text _ => false
  | .elem tn as _ =>
    tn == nm && (match cls with
                 | none => true
                 | some c => hasClassToken as c)

mutual
/-- First node in a sibling list (searched in document order, each node
before its own descendants) satisfying the filter. -/
def findInList (nm : String) (cls : Option String) : NodeList → Option Node
  | .nil => none
  | .cons c t =>
    match findUnder nm cls c with
    | some r => some r
    | none => findInList nm cls t

/-- First of `c` and its descendants satisfying the filter. -/
def findUnder (nm : String) (cls : Option String) (c : Node) : Option Node :=
  if nodeFilter nm cls c then some c
  else
    match c with
    | .elem _ _ cs => findInList nm cls cs
    | .text _ => none
end

/-- Model of BeautifulSoup `t.find(nm)` / `t.find(nm, {"class": cls})`
(and of its alias `findChild` used on line 73): first strict descendant of
`t` in document order matching the filter, or `none`. -/
def bsFind (t : Node) (nm : String) (cls : Option String) : Option Node :=
  match t with
  | .elem _ _ cs => findInList nm cls cs
  | .text _ => none

/-! ### The viewable-image predicate (`viewable_image`, lines 89-106) -/

/-- Model of `viewable_image(tag)` (lines 89-106 of the script).  The Python
body is a short-circuit conjunction, so `tag["src"]` is read as soon as the
tag name is `img` (raising `KeyError` when absent) and `tag["alt"]` is read
only after both regex searches on the lowercased source succeed (raising
`KeyError` when absent).  `find_all` only ever applies the predicate to
element nodes; text nodes are mapped to `false` for totality. -/
def viewable_image (t : Node) : Except PyErr Bool :=
  match t with
  | .text _ => .ok false
  | .elem nm as _ =>
    if nm != "img" then .ok false
    else
      match lookupAttr as "src" with
      | none => .error (.keyError "src")
      | some src =>
        if !(reSearchNotSvg (pyLower src)) then .ok false
        else if !(reSearchExtDollar (pyLower src)) then .ok false
        else
          match lookupAttr as "alt" with
          | none => .error (.keyError "alt")
          | some alt => .ok (alt != "dagger")

mutual
/-- Collect, in document order, every element of a sibling list (and of
their subtrees) on which `viewable_image` returns true, paired with its
parent; an exception raised by the predicate on any element propagates, as
it does out of `find_all`. -/
def collectViewableList (parent : Node) : NodeList → Except PyErr (List (Node × Node))
  | .nil => .ok []
  | .cons c t =>
    match collectViewableUnder parent c with
    | .error e => .error e
    | .ok here =>
      match collectViewableList parent t with
      | .error e => .error e
      | .ok rest => .ok (here ++ rest)

/-- Collect the viewable images among `c` and its descendants, each paired
with its parent. -/
def collectViewableUnder (parent : Node) (c : Node) : Except PyErr (List (Node × Node)) :=
  match c with
  | .text _ => .ok []
  | .elem nm as cs =>
    match viewable_image (.elem nm as cs) with
    | .error e => .error e
    | .ok b =>
      match collectViewableList (.elem nm as cs) cs with
      | .error e => .error e
      | .ok sub => .ok ((if b then [(Node.elem nm as cs, parent)] else []) ++ sub)
end

/-- Model of `page.find_all(viewable_image)` (line 75), with each match
paired with its `.parent`: every element of the document in document order
on which the predicate returns true.  `find_all` materialises the whole
list before the script indexes it, so an exception raised by the predicate
anywhere in the document propagates even when earlier matches exist. -/
def find_all_viewable (page : Node) : Except PyErr (List (Node × Node)) :=
  match page with
  | .elem _ _ cs => collectViewableList page cs
  | .text _ => .ok []

/-! ### Topic Resolver (`get_wiki_page_id`, lines 17-44) -/

/-- One entry of the search response's `["query"]["search"]` list; the
script only reads its `pageid` field. -/
structure SearchResult where
  pageid : Nat
deriving DecidableEq, Repr

/-- The decoded JSON search response, as far as the script reads it:
`response["query"]["search"]` is an ordered list of results. -/
structure SearchResponse where
  search : List SearchResult
deriving DecidableEq, Repr

/-- Model of `get_wiki_page_id` (lines 17-44) applied to the decoded search
response: `response["query"]["search"][0]["pageid"]`.  Indexing `[0]` into
an empty result list raises `IndexError`. -/
def get_wiki_page_id (resp : SearchResponse) : Except PyErr Nat :=
  match resp.search with
  | [] => .error .indexError
  | r :: _ => .ok r.pageid

/-! ### Primary Image Locator (`get_wiki_image_url`, lines 67-75) -/

/-- Model of the locator half of `get_wiki_image_url` (lines 67-75),
operating on the fetched article page.

* Line 67: `page_content.find("table", {"class": "infobox"})`.  When no
  such table exists the result is `None` and line 68's `infobox.find(...)`
  raises `AttributeError`.
* Line 68: `infobox.find("td", {"class": "infobox-image"})` inside the
  table.
* Line 73: when the cell exists, `image_element.findChild("a")["href"]`
  (`findChild` is BeautifulSoup's alias of `find`): `TypeError` when the
  cell has no link (subscripting `None`), `KeyError` when the link has no
  `href`.
* Line 75: otherwise, `page_content.find_all(viewable_image)[0].parent["href"]`:
  `IndexError` when the list is empty, `KeyError` when the first match's
  parent has no `href`. -/
def locatePrimaryImage (page : Node) : Except PyErr String :=
  match bsFind page "table" (some "infobox") with
  | none => .error .attributeError
  | some infobox =>
    match bsFind infobox "td" (some "infobox-image") with
    | some cell =>
      match bsFind cell "a" none with
      | none => .error .typeError
      | some a =>
        match nodeAttr a "href" with
        | none => .error (.keyError "href")
        | some h => .ok h
    | none =>
      match find_all_viewable page with
      | .error e => .error e
      | .ok [] => .error .indexError
      | .ok ((_, par) :: _) =>
        match nodeAttr par "href" with
        | none => .error (.keyError "href")
        | some h => .ok h

/-! ### Image URL Extractor (`get_wiki_image_url`, lines 79-87) -/

/-- Model of the extractor half of `get_wiki_image_url` (lines 83-87),
operating on the fetched image description page.

* Line 83: `image_page_content.find("div", {"class": "fullImageLink"})`.
* Line 84: `image_parent.find("a").find("img")["src"]`: `AttributeError`
  when the container is missing (`None.find`) or has no link,
  `TypeError` when the link has no image (`None["src"]`), `KeyError` when
  the image has no `src`.
* Lines 85-86: when `re.search("http", image_url)` finds no match, the
  result is prefixed with `"https:"`. -/
def extractImageUrl (ipage : Node) : Except PyErr String :=
  match bsFind ipage "div" (some "fullImageLink") with
  | none => .error .attributeError
  | some d =>
    match bsFind d "a" none with
    | none => .error .attributeError
    | some a =>
      match bsFind a "img" none with
      | none => .error .typeError
      | some img =>
        match nodeAttr img "src" with
        | none => .error (.keyError "src")
        | some src => .ok (if strContains src "http" then src else "https:" ++ src)

/-- Model of `get_wiki_image_url` (lines 46-87): locate the primary image
reference on the article page, fetch the image description page for that
reference (the HTTP transport is the function argument `fetchImagePage`),
and extract the final URL from it. -/
def get_wiki_image_url (page : Node) (fetchImagePage : String → Node) :
    Except PyErr String :=
  match locatePrimaryImage page with
  | .error e => .error e
  | .ok ref => extractImageUrl (fetchImagePage ref)

/-! ### CLI glue (`main`, lines 110-113) -/

/-- Model of the whole pipeline body of `main` up to the `print`: resolve
the page id from the decoded search response, fetch the article page for
it (`fetchArticle`), then run the locator and the extractor. -/
def pipeline (resp : SearchResponse) (fetchArticle : Nat → Node)
    (fetchImagePage : String → Node) : Except PyErr String :=
  match get_wiki_page_id resp with
  | .error e => .error e
  | .ok pid => get_wiki_image_url (fetchArticle pid) fetchImagePage

/-- Observable outcome of one run of the script: the lines printed to
standard output, and the process exit code. -/
structure RunOutcome where
  stdout : List String
  exitCode : Nat
deriving DecidableEq, Repr

/-- Model of `main` (lines 110-113) under Python's runtime semantics: the
script installs no exception handler, so an exception raised at any stage
aborts the process with exit code 1 and nothing is printed; otherwise the
single resolved URL is printed and the process exits with 0.  `print` is
the last statement of `main`, so output happens only after all three
stages have returned. -/
def mainRun (resp : SearchResponse) (fetchArticle : Nat → Node)
    (fetchImagePage : String → Node) : RunOutcome :=
  match pipeline resp fetchArticle fetchImagePage with
  | .ok url => ⟨[url], 0⟩
  | .error _ => ⟨[], 1⟩

/-! ### Claim-side definitions

These restate parts of the specification in its own words, to be compared
with the definitions translated from the script. -/

/-- The viewable-image predicate as the specification words it: the tag is
an image element, the source path ends (case-insensitively) with one of
`jpg`, `jpeg`, `gif`, `png`, the source path does not contain `svg`
anywhere (case-insensitively), and the alternate text is not exactly
`dagger`. -/
def claimViewable : Node → Bool
  | .text _ => false
  | .elem nm as _ =>
    nm == "img" &&
    (match lookupAttr as "src" with
     | none => false
     | some src =>
       (strEndsWith (pyLower src) "jpg" || strEndsWith (pyLower src) "jpeg" ||
          strEndsWith (pyLower src) "gif" || strEndsWith (pyLower src) "png") &&
       !(strContains (pyLower src) "svg")) &&
    (match lookupAttr as "alt" with
     | none => false
     | some alt => alt != "dagger")

/-- The viewable-image predicate as amended: after lowercasing the source
path and stripping a single trailing newline (which the regex end anchor
tolerates), the result ends with one of the four extensions, contains no
newline and does not contain `svg`; the tag is an image element and the
alternate text is not exactly `dagger`. -/
def viewableSpecAmended (nm src alt : String) : Bool :=
  let t := stripTrailingNewline (pyLower src)
  nm == "img" &&
  (strEndsWith t "jpg" || strEndsWith t "jpeg" || strEndsWith t "gif" ||
     strEndsWith t "png") &&
  !(hasNewline t) && !(strContains t "svg") && (alt != "dagger")

/-! ### Claims -/

/-- Claim C1, counterexample.  The claim says the predicate is true exactly
when the source path ends (case-insensitively) with one of the four
extensions and contains no `svg`; but for the element
`<img src="a.jpg\n" alt="foo">` the script's predicate returns true — the
regex end anchor `$` accepts just before a trailing newline — while the
source path does not end with any of the extensions, so the claimed
equivalence is false. -/
theorem C1_claim_counterexample :
    viewable_image (Node.elem "img" [("src", "a.jpg\n"), ("alt", "foo")] NodeList.nil) =
      Except.ok true ∧
    claimViewable (Node.elem "img" [("src", "a.jpg\n"), ("alt", "foo")] NodeList.nil) =
      false :=
  ⟨rfl, rfl⟩

/-- Claim C1 (amended): on an element carrying both a source and an
alternate-text attribute, the predicate `viewable_image` returns (without
raising) exactly the conjunction worded by the amended claim: the tag is an
image element and, after lowercasing the source path and stripping a single
trailing newline, the result ends with one of `jpg`, `jpeg`, `gif`, `png`,
contains no newline and does not contain `svg`, and the alternate text is
not exactly `dagger`. -/
theorem C1_amended_viewable (nm : String) (as : List (String × String))
    (cs : NodeList) (src alt : String)
    (hs : lookupAttr as "src" = some src) (ha : lookupAttr as "alt" = some alt) :
    viewable_image (Node.elem nm as cs) = Except.ok (viewableSpecAmended nm src alt) := by
  by_cases hnm : nm = "img"
  · subst hnm
    simp only [viewable_image, viewableSpecAmended, reSearchNotSvg, reSearchExtDollar,
      bne_self_eq_false, Bool.not_false, if_false, hs, ha, beq_self_eq_true,
      Bool.true_and]
    cases h1 : hasNewline (stripTrailingNewline (pyLower src)) <;>
      cases h2 : strContains (stripTrailingNewline (pyLower src)) "svg" <;>
      cases h3 : strEndsWith (stripTrailingNewline (pyLower src)) "jpg" <;>
      cases h4 : strEndsWith (stripTrailingNewline (pyLower src)) "jpeg" <;>
      cases h5 : strEndsWith (stripTrailingNewline (pyLower src)) "gif" <;>
      cases h6 : strEndsWith (stripTrailingNewline (pyLower src)) "png" <;>
      simp
  · have h1 : (nm == "img") = false := beq_eq_false_iff_ne.mpr hnm
    have h2 : (nm != "img") = true := bne_iff_ne.mpr hnm
    simp only [viewable_image, viewableSpecAmended, h1, h2, if_true, Bool.false_and]

/-- Witness for C1 (amended): at the spec's own concrete case
`<img src="A.JPG" alt="foo">` the predicate returns true. -/
theorem C1_amended_viewable_witness :
    viewable_image (Node.elem "img" [("src", "A.JPG"), ("alt", "foo")] NodeList.nil) =
      Except.ok true :=
  C1_amended_viewable "img" [("src", "A.JPG"), ("alt", "foo")] NodeList.nil
    "A.JPG" "foo" rfl rfl

/-- Claim C3: for every search response with at least one result, the topic
resolver returns exactly the page identifier of the first entry of the
result list in the order of the upstream response. -/
theorem C3_first_result (resp : SearchResponse) (r : SearchResult)
    (rest : List SearchResult) (h : resp.search = r :: rest) :
    get_wiki_page_id resp = Except.ok r.pageid := by
  simp [get_wiki_page_id, h]

/-- Witness for C3 at a concrete two-element response: the first entry's id
is returned, not the second. -/
theorem C3_first_result_witness :
    get_wiki_page_id ⟨[⟨42⟩, ⟨7⟩]⟩ = Except.ok 42 :=
  C3_first_result ⟨[⟨42⟩, ⟨7⟩]⟩ ⟨42⟩ [⟨7⟩] rfl

/-- Claim C7: for every search response with zero results the topic
resolver fails (the `[0]` index raises), and for every behaviour of the
later stages the run produces no output and exits non-zero — the locator
and extractor never execute. -/
theorem C7_empty_results (resp : SearchResponse) (fa : Nat → Node)
    (fi : String → Node) (h : resp.search = []) :
    get_wiki_page_id resp = Except.error PyErr.indexError ∧
    mainRun resp fa fi = ⟨[], 1⟩ := by
  constructor
  · simp [get_wiki_page_id, h]
  · simp [mainRun, pipeline, get_wiki_page_id, h]

/-- Witness for C7 at the concrete empty response. -/
theorem C7_empty_results_witness :
    get_wiki_page_id ⟨[]⟩ = Except.error PyErr.indexError ∧
    mainRun ⟨[]⟩ (fun _ => Node.text "") (fun _ => Node.text "") = ⟨[], 1⟩ :=
  C7_empty_results ⟨[]⟩ (fun _ => Node.text "") (fun _ => Node.text "") rfl

/-- Article page with no `infobox` table at all, but with a qualifying image
wrapped in a link: the fallback described by the spec would return the link,
but line 68 of the script calls `.find` on the `None` returned by line 67. -/
def c2NoTablePage : Node :=
  Node.elem "[document]" [] (toNodeList
    [Node.elem "p" [] (toNodeList
      [Node.elem "a" [("href", "/wiki/File:X.jpg")] (toNodeList
        [Node.elem "img" [("src", "/thumb/X.jpg"), ("alt", "X")] NodeList.nil])])])

/-- Claim C2, counterexample.  On a page with no `infobox` table the whole
page does contain a qualifying image whose enclosing link is
`/wiki/File:X.jpg`, yet the locator does not fall back to scanning the
page: line 68 (`infobox.find(...)`) raises `AttributeError` on the `None`
from line 67, so the claimed whole-page fallback never happens in this
case. -/
theorem C2_claim_counterexample :
    find_all_viewable c2NoTablePage =
      Except.ok
        [(Node.elem "img" [("src", "/thumb/X.jpg"), ("alt", "X")] NodeList.nil,
          Node.elem "a" [("href", "/wiki/File:X.jpg")] (toNodeList
            [Node.elem "img" [("src", "/thumb/X.jpg"), ("alt", "X")] NodeList.nil]))] ∧
    locatePrimaryImage c2NoTablePage = Except.error PyErr.attributeError :=
  ⟨rfl, rfl⟩

/-- Claim C2 (amended): on every article page that does contain an
`infobox` table but whose table has no `infobox-image` cell, the locator
scans the entire page for elements satisfying the viewable-image predicate
(`find_all_viewable` lists them in document order) and returns the `href`
of the enclosing parent of the first match.  (On a page with no `infobox`
table the locator instead raises `AttributeError`.) -/
theorem C2_amended_fallback (page ib img par : Node) (rest : List (Node × Node))
    (href : String)
    (h1 : bsFind page "table" (some "infobox") = some ib)
    (h2 : bsFind ib "td" (some "infobox-image") = none)
    (h3 : find_all_viewable page = Except.ok ((img, par) :: rest))
    (h4 : nodeAttr par "href" = some href) :
    locatePrimaryImage page = Except.ok href := by
  simp [locatePrimaryImage, h1, h2, h3, h4]

/-- Article page whose `infobox` table has no image cell, with two
qualifying images on the page, each wrapped in a link. -/
def c2FallbackPage : Node :=
  Node.elem "[document]" [] (toNodeList
    [Node.elem "table" [("class", "infobox")] (toNodeList
      [Node.elem "td" [] NodeList.nil]),
     Node.elem "a" [("href", "/wiki/File:Y.jpg")] (toNodeList
       [Node.elem "img" [("src", "/t/Y.png"), ("alt", "Y")] NodeList.nil]),
     Node.elem "a" [("href", "/wiki/File:Z.jpg")] (toNodeList
       [Node.elem "img" [("src", "/t/Z.png"), ("alt", "Z")] NodeList.nil])])

/-- Witness for C2 (amended): on the concrete fallback page the locator
returns the enclosing link of the first qualifying image in document
order, `/wiki/File:Y.jpg`, not the later one. -/
theorem C2_amended_fallback_witness :
    locatePrimaryImage c2FallbackPage = Except.ok "/wiki/File:Y.jpg" :=
  C2_amended_fallback c2FallbackPage
    (Node.elem "table" [("class", "infobox")] (toNodeList
      [Node.elem "td" [] NodeList.nil]))
    (Node.elem "img" [("src", "/t/Y.png"), ("alt", "Y")] NodeList.nil)
    (Node.elem "a" [("href", "/wiki/File:Y.jpg")] (toNodeList
      [Node.elem "img" [("src", "/t/Y.png"), ("alt", "Y")] NodeList.nil]))
    [(Node.elem "img" [("src", "/t/Z.png"), ("alt", "Z")] NodeList.nil,
      Node.elem "a" [("href", "/wiki/File:Z.jpg")] (toNodeList
        [Node.elem "img" [("src", "/t/Z.png"), ("alt", "Z")] NodeList.nil]))]
    "/wiki/File:Y.jpg" rfl rfl rfl rfl

/-- Article page whose `infobox` table exists but has no `infobox-image`
cell, and which contains no image element at all: the fallback list is
empty. -/
def c4Page : Node :=
  Node.elem "[document]" [] (toNodeList
    [Node.elem "table" [("class", "infobox")] (toNodeList
      [Node.elem "td" [] NodeList.nil])])

/-- Claim C4: on a page where neither the structured lookup nor the
fallback scan yields any candidate (the fallback list is empty), the
script does not raise the `NoImageFoundError` the spec requires: line 75
indexes `[0]` into the empty `find_all` result and crashes with an
uncaught `IndexError`. -/
theorem C4_empty_fallback_crash :
    find_all_viewable c4Page = Except.ok [] ∧
    locatePrimaryImage c4Page = Except.error PyErr.indexError :=
  ⟨rfl, rfl⟩

/-- Claim C6: on every article page with an `infobox` table whose
`infobox-image` cell contains a link carrying an `href`, the locator
returns that link target verbatim.  The conclusion holds for every state
of the rest of the page — in particular even when the whole-page scan
`find_all_viewable` would raise — so the fallback scan is never invoked on
such a page. -/
theorem C6_infobox_link (page ib cell a : Node) (href : String)
    (h1 : bsFind page "table" (some "infobox") = some ib)
    (h2 : bsFind ib "td" (some "infobox-image") = some cell)
    (h3 : bsFind cell "a" none = some a)
    (h4 : nodeAttr a "href" = some href) :
    locatePrimaryImage page = Except.ok href := by
  simp [locatePrimaryImage, h1, h2, h3, h4]

/-- Article page with an `infobox` image cell linking to
`/wiki/File:X.jpg`, plus a poison image without a `src` attribute later on
the page, on which the whole-page scan would raise `KeyError`. -/
def c6Page : Node :=
  Node.elem "[document]" [] (toNodeList
    [Node.elem "table" [("class", "infobox")] (toNodeList
      [Node.elem "td" [("class", "infobox-image")] (toNodeList
        [Node.elem "a" [("href", "/wiki/File:X.jpg")] (toNodeList
          [Node.elem "img" [("src", "/t/X.jpg"), ("alt", "X")] NodeList.nil])])]),
     Node.elem "img" [("alt", "broken")] NodeList.nil])

/-- Witness for C6: on the concrete page the locator returns the infobox
link verbatim, while the fallback scan would have raised `KeyError` on the
poison image — so the fallback was not invoked. -/
theorem C6_infobox_link_witness :
    locatePrimaryImage c6Page = Except.ok "/wiki/File:X.jpg" ∧
    find_all_viewable c6Page = Except.error (PyErr.keyError "src") :=
  ⟨C6_infobox_link c6Page
      (Node.elem "table" [("class", "infobox")] (toNodeList
        [Node.elem "td" [("class", "infobox-image")] (toNodeList
          [Node.elem "a" [("href", "/wiki/File:X.jpg")] (toNodeList
            [Node.elem "img" [("src", "/t/X.jpg"), ("alt", "X")] NodeList.nil])])]))
      (Node.elem "td" [("class", "infobox-image")] (toNodeList
        [Node.elem "a" [("href", "/wiki/File:X.jpg")] (toNodeList
          [Node.elem "img" [("src", "/t/X.jpg"), ("alt", "X")] NodeList.nil])]))
      (Node.elem "a" [("href", "/wiki/File:X.jpg")] (toNodeList
        [Node.elem "img" [("src", "/t/X.jpg"), ("alt", "X")] NodeList.nil]))
      "/wiki/File:X.jpg" rfl rfl rfl rfl,
   rfl⟩

/-- Claim C5: for every image description page on which the extractor's
chain (the `fullImageLink` container, its link, the link's image, the
image's source) succeeds, the extracted source string is returned prefixed
with `https:` when it does not contain the substring `http` anywhere, and
returned unmodified when it does. -/
theorem C5_normalization (p d a i : Node) (s : String)
    (h1 : bsFind p "div" (some "fullImageLink") = some d)
    (h2 : bsFind d "a" none = some a)
    (h3 : bsFind a "img" none = some i)
    (h4 : nodeAttr i "src" = some s) :
    (strContains s "http" = false → extractImageUrl p = Except.ok ("https:" ++ s)) ∧
    (strContains s "http" = true → extractImageUrl p = Except.ok s) := by
  constructor <;> intro hc <;> simp [extractImageUrl, h1, h2, h3, h4, hc]

/-- Image description page whose full-image container embeds the
protocol-relative source `//upload.example/foo.png`. -/
def c5PageRel : Node :=
  Node.elem "[document]" [] (toNodeList
    [Node.elem "div" [("class", "fullImageLink")] (toNodeList
      [Node.elem "a" [("href", "//upload.example/foo.png")] (toNodeList
        [Node.elem "img" [("src", "//upload.example/foo.png")] NodeList.nil])])])

/-- Image description page whose full-image container embeds a source that
already contains `http`. -/
def c5PageAbs : Node :=
  Node.elem "[document]" [] (toNodeList
    [Node.elem "div" [("class", "fullImageLink")] (toNodeList
      [Node.elem "a" [("href", "http://upload.example/bar.jpg")] (toNodeList
        [Node.elem "img" [("src", "http://upload.example/bar.jpg")] NodeList.nil])])])

/-- Witness for C5 at the spec's concrete cases: the protocol-relative
source `//upload.example/foo.png` yields `https://upload.example/foo.png`,
and a source already containing `http` is returned unmodified. -/
theorem C5_normalization_witness :
    extractImageUrl c5PageRel = Except.ok "https://upload.example/foo.png" ∧
    extractImageUrl c5PageAbs = Except.ok "http://upload.example/bar.jpg" :=
  ⟨(C5_normalization c5PageRel
      (Node.elem "div" [("class", "fullImageLink")] (toNodeList
        [Node.elem "a" [("href", "//upload.example/foo.png")] (toNodeList
          [Node.elem "img" [("src", "//upload.example/foo.png")] NodeList.nil])]))
      (Node.elem "a" [("href", "//upload.example/foo.png")] (toNodeList
        [Node.elem "img" [("src", "//upload.example/foo.png")] NodeList.nil]))
      (Node.elem "img" [("src", "//upload.example/foo.png")] NodeList.nil)
      "//upload.example/foo.png" rfl rfl rfl rfl).1 rfl,
   (C5_normalization c5PageAbs
      (Node.elem "div" [("class", "fullImageLink")] (toNodeList
        [Node.elem "a" [("href", "http://upload.example/bar.jpg")] (toNodeList
          [Node.elem "img" [("src", "http://upload.example/bar.jpg")] NodeList.nil])]))
      (Node.elem "a" [("href", "http://upload.example/bar.jpg")] (toNodeList
        [Node.elem "img" [("src", "http://upload.example/bar.jpg")] NodeList.nil]))
      (Node.elem "img" [("src", "http://upload.example/bar.jpg")] NodeList.nil)
      "http://upload.example/bar.jpg" rfl rfl rfl rfl).2 rfl⟩

/-- The extractor's location chain: the `fullImageLink` container, then its
first link, then the link's first image.  `none` means this chain cannot be
located on the page. -/
def locateEmbeddedImg (p : Node) : Option Node :=
  match bsFind p "div" (some "fullImageLink") with
  | none => none
  | some d =>
    match bsFind d "a" none with
    | none => none
    | some a => bsFind a "img" none

/-- Claim C8: on every image description page where the `fullImageLink`
container or its embedded image cannot be located, the extractor fails
(raises) rather than producing a URL. -/
theorem C8_no_full_image (p : Node) (h : locateEmbeddedImg p = none) :
    ∃ e, extractImageUrl p = Except.error e := by
  unfold locateEmbeddedImg at h
  cases h1 : bsFind p "div" (some "fullImageLink") with
  | none => exact ⟨PyErr.attributeError, by simp [extractImageUrl, h1]⟩
  | some d =>
    cases h2 : bsFind d "a" none with
    | none => exact ⟨PyErr.attributeError, by simp [extractImageUrl, h1, h2]⟩
    | some a =>
      cases h3 : bsFind a "img" none with
      | none => exact ⟨PyErr.typeError, by simp [extractImageUrl, h1, h2, h3]⟩
      | some i => simp [h1, h2, h3] at h

/-- Witness for C8 at a concrete description page with no `fullImageLink`
container. -/
theorem C8_no_full_image_witness :
    locateEmbeddedImg (Node.elem "[document]" [] NodeList.nil) = none ∧
    ∃ e, extractImageUrl (Node.elem "[document]" [] NodeList.nil) = Except.error e :=
  ⟨rfl, C8_no_full_image (Node.elem "[document]" [] NodeList.nil) rfl⟩

/-- Claim C9: every run either has all three stages succeed — and then the
URL produced by the extractor is printed and the exit code is 0 — or some
stage raises, the run aborts with exit code 1 and nothing at all is printed
to standard output.  No partial URL can ever be printed, because `print` is
reached only when the whole pipeline returns. -/
theorem C9_fail_fast (resp : SearchResponse) (fa : Nat → Node)
    (fi : String → Node) :
    (∃ url, pipeline resp fa fi = Except.ok url ∧ mainRun resp fa fi = ⟨[url], 0⟩ ∧
       ∃ pid ref, get_wiki_page_id resp = Except.ok pid ∧
         locatePrimaryImage (fa pid) = Except.ok ref ∧
         extractImageUrl (fi ref) = Except.ok url) ∨
    (∃ e, pipeline resp fa fi = Except.error e ∧ mainRun resp fa fi = ⟨[], 1⟩) := by
  cases hp : get_wiki_page_id resp with
  | error e =>
    right
    exact ⟨e, by simp [pipeline, hp], by simp [mainRun, pipeline, hp]⟩
  | ok pid =>
    cases hl : locatePrimaryImage (fa pid) with
    | error e =>
      right
      refine ⟨e, ?_, ?_⟩ <;> simp [mainRun, pipeline, get_wiki_image_url, hp, hl]
    | ok ref =>
      cases he : extractImageUrl (fi ref) with
      | error e =>
        right
        refine ⟨e, ?_, ?_⟩ <;> simp [mainRun, pipeline, get_wiki_image_url, hp, hl, he]
      | ok url =>
        left
        refine ⟨url, ?_, ?_, pid, ref, rfl, hl, he⟩ <;>
          simp [mainRun, pipeline, get_wiki_image_url, hp, hl, he]

/-- Claim C10: the viewable-image predicate demands the attributes it
reads.  On an element whose tag is `img` but which has no `src` attribute
it raises `KeyError "src"` rather than returning false, and on an element
whose (lowercased) source passes both regex searches but which has no
`alt` attribute it raises `KeyError "alt"` rather than returning false. -/
theorem C10_keyerrors (as : List (String × String)) (cs : NodeList) :
    (lookupAttr as "src" = none →
       viewable_image (Node.elem "img" as cs) = Except.error (PyErr.keyError "src")) ∧
    (∀ src, lookupAttr as "src" = some src →
       reSearchNotSvg (pyLower src) = true →
       reSearchExtDollar (pyLower src) = true →
       lookupAttr as "alt" = none →
       viewable_image (Node.elem "img" as cs) = Except.error (PyErr.keyError "alt")) := by
  constructor
  · intro h
    simp [viewable_image, h]
  · intro src h h1 h2 h3
    simp [viewable_image, h, h1, h2, h3]

/-- Witness for C10 at concrete elements: `<img alt="...">` with no source
raises `KeyError "src"`; `<img src="a.jpg">` with no alternate text raises
`KeyError "alt"`. -/
theorem C10_keyerrors_witness :
    viewable_image (Node.elem "img" [("alt", "x")] NodeList.nil) =
      Except.error (PyErr.keyError "src") ∧
    viewable_image (Node.elem "img" [("src", "a.jpg")] NodeList.nil) =
      Except.error (PyErr.keyError "alt") :=
  ⟨(C10_keyerrors [("alt", "x")] NodeList.nil).1 rfl,
   (C10_keyerrors [("src", "a.jpg")] NodeList.nil).2 "a.jpg" rfl rfl rfl rfl⟩
